import Mathlib

/-!
Shallow embedding of `src/frontend/src/components/banking/ChartOfAccounts.js`:
the chart-of-accounts view model (state, `loadAccounts`, the debounced search
effect, `filteredAccounts`, `accountStats`, and the render branch order).
JavaScript strings are modelled by `String`, optional / possibly-undefined
fields by `Option`, and JavaScript truthiness of strings and options is made
explicit where the source relies on it.
-/

namespace ChartOfAccounts

/-- `leadMatches pat s` is true when the characters of `pat` occur at the very
start of `s` (helper for JavaScript `String.prototype.includes`). -/
def leadMatches : List Char → List Char → Bool
  | [], _ => true
  | _ :: _, [] => false
  | p :: ps, c :: cs => p == c && leadMatches ps cs

/-- `containsSeq s pat`: `pat` occurs contiguously somewhere in `s`. -/
def containsSeq : List Char → List Char → Bool
  | [], pat => pat.isEmpty
  | c :: tail, pat => leadMatches pat (c :: tail) || containsSeq tail pat

/-- JavaScript `s.includes(pat)` (substring containment, case-sensitive). -/
def jsIncludes (s pat : String) : Bool :=
  containsSeq s.data pat.data

/-- JavaScript `s.toLowerCase()` restricted to the ASCII range, which `Char.toLower`
implements; the repository's account data and filter values are ASCII. -/
def jsToLower (s : String) : String :=
  String.mk (s.data.map Char.toLower)

/-- An account record as consumed by the view (fields read by the component:
`name`, `number`, `type`, `balance`, `is_active`). `number` and `balance` may be
absent in the wire data, hence `Option`. -/
structure Account where
  name : String
  number : Option String
  type : String
  balance : Option Int
  is_active : Bool
deriving DecidableEq, Repr

/-- `matchesSearch` conjunct of the filter at lines 79-81:
`searchTerm === "" || account.name.toLowerCase().includes(searchTerm.toLowerCase())
 || (account.number && account.number.includes(searchTerm))`.
An absent `number`, and the empty string (falsy in JavaScript), short-circuit
the third disjunct to false. -/
def matchesSearch (searchTerm : String) (a : Account) : Bool :=
  searchTerm == "" ||
  jsIncludes (jsToLower a.name) (jsToLower searchTerm) ||
  (match a.number with
   | some n => if n == "" then false else jsIncludes n searchTerm
   | none => false)

/-- `matchesType` conjunct at line 82:
`filterType === "all" || account.type.toLowerCase() === filterType.toLowerCase()`. -/
def matchesType (filterType : String) (a : Account) : Bool :=
  filterType == "all" || jsToLower a.type == jsToLower filterType

/-- `matchesActive` conjunct at line 83: `showInactive || account.is_active`. -/
def matchesActive (showInactive : Bool) (a : Account) : Bool :=
  showInactive || a.is_active

/-- `filteredAccounts` (lines 78-85): `accounts.filter(...)` of the conjunction
of the three predicates. -/
def filteredAccounts (accounts : List Account) (searchTerm filterType : String)
    (showInactive : Bool) : List Account :=
  accounts.filter fun a =>
    matchesSearch searchTerm a && matchesType filterType a && matchesActive showInactive a

/-- Spec-side reading of the search conjunct, written from the spec's words:
"searchTerm is empty, OR case-insensitive substring match against name, OR
(account has a number AND number contains searchTerm as a literal substring,
case-sensitive)". -/
def specSearchPred (searchTerm : String) (a : Account) : Prop :=
  searchTerm = "" ∨
  jsIncludes (jsToLower a.name) (jsToLower searchTerm) = true ∨
  (∃ n, a.number = some n ∧ jsIncludes n searchTerm = true)

/-- Spec-side reading of the type conjunct: "filterType is `all` OR
case-insensitive equality between filterType and account.type". -/
def specTypePred (filterType : String) (a : Account) : Prop :=
  filterType = "all" ∨ jsToLower a.type = jsToLower filterType

/-- Spec-side reading of the active conjunct: "showInactive is true OR the
account's is_active is true". -/
def specActivePred (showInactive : Bool) (a : Account) : Prop :=
  showInactive = true ∨ a.is_active = true

theorem containsSeq_nil_iff (pat : List Char) :
    containsSeq [] pat = true ↔ pat = [] := by
  simp [containsSeq, List.isEmpty_iff]

theorem jsIncludes_empty_left (pat : String) :
    jsIncludes "" pat = true ↔ pat = "" := by
  unfold jsIncludes
  rw [show ("" : String).data = [] from rfl, containsSeq_nil_iff]
  constructor
  · intro h
    cases pat with
    | mk d => simpa using congrArg String.mk h
  · intro h; subst h; rfl

theorem matchesSearch_iff (searchTerm : String) (a : Account) :
    matchesSearch searchTerm a = true ↔ specSearchPred searchTerm a := by
  unfold matchesSearch specSearchPred
  cases hnum : a.number with
  | none =>
      simp
  | some n =>
      constructor
      · intro h
        simp only [Bool.or_eq_true, beq_iff_eq] at h
        rcases h with (h | h) | h
        · exact Or.inl h
        · exact Or.inr (Or.inl h)
        · by_cases hn : n = ""
          · rw [if_pos (by simp [hn])] at h
            exact absurd h (by simp)
          · rw [if_neg (by simp [hn])] at h
            exact Or.inr (Or.inr ⟨n, rfl, h⟩)
      · intro h
        simp only [Bool.or_eq_true, beq_iff_eq]
        rcases h with h | h | ⟨m, hm, hinc⟩
        · exact Or.inl (Or.inl h)
        · exact Or.inl (Or.inr h)
        · have hnm : n = m := by injection hm
          subst hnm
          by_cases hn : n = ""
          · subst hn
            rw [jsIncludes_empty_left] at hinc
            exact Or.inl (Or.inl hinc)
          · refine Or.inr ?h
            rw [if_neg (by simp [hn])]
            exact hinc

theorem matchesType_iff (filterType : String) (a : Account) :
    matchesType filterType a = true ↔ specTypePred filterType a := by
  simp [matchesType, specTypePred]

theorem matchesActive_iff (showInactive : Bool) (a : Account) :
    matchesActive showInactive a = true ↔ specActivePred showInactive a := by
  simp [matchesActive, specActivePred]

/-- C1: for every account list and every combination of `searchTerm`,
`filterType`, `showInactive`, the filtered list contains exactly the accounts
of the input satisfying the conjunction of the three predicates: (searchTerm
empty, or case-insensitive substring of the name, or the account has a number
containing searchTerm case-sensitively), (filterType is "all" or equals the
type case-insensitively), and (showInactive or is_active). -/
theorem filteredAccounts_mem_iff (accounts : List Account)
    (searchTerm filterType : String) (showInactive : Bool) (a : Account) :
    a ∈ filteredAccounts accounts searchTerm filterType showInactive ↔
      a ∈ accounts ∧ specSearchPred searchTerm a ∧ specTypePred filterType a ∧
        specActivePred showInactive a := by
  unfold filteredAccounts
  rw [List.mem_filter]
  simp only [Bool.and_eq_true]
  rw [matchesSearch_iff, matchesType_iff, matchesActive_iff]
  tauto

/-- The company context value (`currentCompany` from `useCompany()`); the code
reads only its `id`. A missing company is `Option.none` at the use sites. -/
structure Company where
  id : String
deriving DecidableEq, Repr

/-- JavaScript truthiness of `currentCompany?.id` (line 35 and 69): false when
the company is absent or its `id` is the empty string. -/
def companyGuard (currentCompany : Option Company) : Bool :=
  match currentCompany with
  | none => false
  | some c => !(c.id == "")

/-- The mutable component state touched by `loadAccounts` and the render
branches: `accounts`, `loading`, `error` (initial values at lines 28-30). -/
structure ViewState where
  accounts : List Account
  loading : Bool
  error : Option String
deriving DecidableEq, Repr

/-- The `useState` initial values: `accounts = []`, `loading = true`,
`error = null`. -/
def initialViewState : ViewState :=
  { accounts := [], loading := true, error := none }

/-- A rejection from the account service: an error object whose `message`
property may be absent (`undefined`). -/
structure JsError where
  message : Option String
deriving DecidableEq, Repr

/-- The resolved value of `accountService.getAccounts`: an object whose `data`
property may be absent. -/
structure FetchResponse where
  data : Option (List Account)
deriving DecidableEq, Repr

/-- JavaScript `a || b` on a possibly-undefined string (`err.message ||
'Failed to load accounts'`): the default wins when the value is absent or the
empty string (both falsy). -/
def jsOrString (v : Option String) (d : String) : String :=
  match v with
  | none => d
  | some s => if s == "" then d else s

/-- The body of `loadAccounts` before the `await` (lines 42-43):
`setLoading(true); setError(null)`. -/
def loadAccountsStart (s : ViewState) : ViewState :=
  { s with loading := true, error := none }

/-- The continuation of `loadAccounts` after the fetch settles (lines 51-58):
on success `setAccounts(accountsData.data || [])`; on rejection
`setError(err.message || 'Failed to load accounts')`; in both cases the
`finally` block runs `setLoading(false)`. -/
def loadAccountsFinish (result : Except JsError FetchResponse)
    (s : ViewState) : ViewState :=
  match result with
  | Except.ok resp =>
      { s with accounts := resp.data.getD [], loading := false }
  | Except.error e =>
      { s with error := some (jsOrString e.message "Failed to load accounts"),
               loading := false }

/-- A complete run of `loadAccounts` (lines 40-59) whose fetch settles with
`result`, applied to the state at call time. -/
def loadAccounts (result : Except JsError FetchResponse)
    (s : ViewState) : ViewState :=
  loadAccountsFinish result (loadAccountsStart s)

/-- The company-change effect (lines 34-38): `loadAccounts` is invoked exactly
when `currentCompany?.id` is truthy. -/
def companyChangeEffectFetches (currentCompany : Option Company) : Bool :=
  companyGuard currentCompany

/-- Firing times of the debounce timer (lines 68-76) for a strictly increasing
list of effect-trigger times: each trigger sets a timer to fire `delay`
milliseconds later, and the effect cleanup on the next trigger clears the
pending timer if it has not yet fired. -/
def debounceFires (delay : Nat) : List Nat → List Nat
  | [] => []
  | [t] => [t + delay]
  | t1 :: t2 :: rest =>
      if t2 < t1 + delay then debounceFires delay (t2 :: rest)
      else (t1 + delay) :: debounceFires delay (t2 :: rest)

/-- Fetch times produced by the debounced search effect (lines 68-76): the
effect body runs only when `currentCompany?.id` is truthy, in which case each
trigger schedules `loadAccounts()` after `delay` ms, cancelled by a newer
trigger arriving first. -/
def debouncedSearchEffect (currentCompany : Option Company) (delay : Nat)
    (changes : List Nat) : List Nat :=
  if companyGuard currentCompany then debounceFires delay changes else []

/-- What the component returns, by the early-return ladder at lines 104-131:
`loading` first, then `error` (string truthiness), then the missing-company
prompt, else the main table view. -/
inductive RenderOutput where
  | loadingView
  | errorView (msg : String)
  | selectCompanyPrompt
  | mainView
deriving DecidableEq, Repr

/-- JavaScript truthiness of the `error` state in `if (error)`. -/
def jsTruthyOptStr (v : Option String) : Bool :=
  match v with
  | none => false
  | some s => !(s == "")

/-- The render branch order of the component (lines 104-131 and the final
return): `if (loading) … ; if (error) … ; if (!currentCompany) … ; main`. -/
def render (currentCompany : Option Company) (s : ViewState) : RenderOutput :=
  if s.loading then RenderOutput.loadingView
  else if jsTruthyOptStr s.error then RenderOutput.errorView (s.error.getD "")
  else if currentCompany.isNone then RenderOutput.selectCompanyPrompt
  else RenderOutput.mainView

/-- JavaScript `account.balance || 0` in the `reduce` calls (lines 98-100). -/
def jsBalance (v : Option Int) : Int :=
  match v with
  | none => 0
  | some b => b

/-- The derived statistics record (lines 96-102). -/
structure AccountStats where
  bankAccounts : Nat
  totalBankBalance : Int
  totalAssets : Int
  totalLiabilities : Int
  totalAccounts : Nat
deriving DecidableEq, Repr

/-- `accountStats` (lines 96-102), computed from the full `accounts` list:
counts and `reduce`-sums over case-sensitive exact type matches. -/
def accountStats (accounts : List Account) : AccountStats :=
  { bankAccounts := (accounts.filter fun a => a.type == "Bank").length,
    totalBankBalance :=
      (accounts.filter fun a => a.type == "Bank").foldl
        (fun sum a => sum + jsBalance a.balance) 0,
    totalAssets :=
      (accounts.filter fun a => a.type == "Fixed Asset").foldl
        (fun sum a => sum + jsBalance a.balance) 0,
    totalLiabilities :=
      (accounts.filter fun a => a.type == "Accounts Payable").foldl
        (fun sum a => sum + jsBalance a.balance) 0,
    totalAccounts := accounts.length }

/-- Accounts of the worked example in the spec: a Bank account with balance 100
(active) and a Fixed Asset account with balance 500 (inactive). -/
def exampleAccounts : List Account :=
  [ { name := "Checking", number := none, type := "Bank",
      balance := some 100, is_active := true },
    { name := "Building", number := none, type := "Fixed Asset",
      balance := some 500, is_active := false } ]

/-- An account whose `type` differs from "Bank" only in letter case. -/
def lowercaseBankAccount : Account :=
  { name := "Petty Cash", number := none, type := "bank",
    balance := some 100, is_active := true }

theorem foldl_add_jsBalance (l : List Account) (init : Int) :
    l.foldl (fun sum a => sum + jsBalance a.balance) init
      = init + (l.map fun a => jsBalance a.balance).sum := by
  induction l generalizing init with
  | nil => simp
  | cons a tl ih => simp [List.foldl_cons, ih, add_assoc]

theorem foldl_balance_cons_none (p : Account → Bool) (accounts : List Account)
    (a : Account) (h : a.balance = none) :
    ((a :: accounts).filter p).foldl (fun sum x => sum + jsBalance x.balance) 0
      = (accounts.filter p).foldl (fun sum x => sum + jsBalance x.balance) 0 := by
  rw [List.filter_cons]
  by_cases hp : p a = true
  · rw [if_pos hp, List.foldl_cons, h]
    simp [jsBalance]
  · rw [if_neg hp]

/-- C2: a rejected fetch sets `error` to the rejection's message (when one is
present and non-empty) or to "Failed to load accounts" (when absent), sets
`loading` to false, and leaves the stored `accounts` unchanged. -/
theorem loadAccounts_error_spec (s : ViewState) (e : JsError) :
    (loadAccounts (Except.error e) s).loading = false ∧
    (loadAccounts (Except.error e) s).accounts = s.accounts ∧
    (∀ m, e.message = some m → m ≠ "" →
      (loadAccounts (Except.error e) s).error = some m) ∧
    (e.message = none →
      (loadAccounts (Except.error e) s).error = some "Failed to load accounts") := by
  refine ⟨rfl, rfl, ?h1, ?h2⟩
  · intro m hm hne
    simp [loadAccounts, loadAccountsFinish, loadAccountsStart, jsOrString, hm, hne]
  · intro hm
    simp [loadAccounts, loadAccountsFinish, loadAccountsStart, jsOrString, hm]

/-- C2 witness: the spec's "timeout" scenario, starting from the initial
state. -/
theorem loadAccounts_error_spec_witness :
    (loadAccounts (Except.error ⟨some "timeout"⟩) initialViewState).error
        = some "timeout" ∧
    (loadAccounts (Except.error ⟨some "timeout"⟩) initialViewState).loading = false ∧
    (loadAccounts (Except.error ⟨some "timeout"⟩) initialViewState).accounts
        = initialViewState.accounts := by
  have h := loadAccounts_error_spec initialViewState ⟨some "timeout"⟩
  exact ⟨h.2.2.1 "timeout" rfl (by decide), h.1, h.2.1⟩

/-- C3: with a company selected, three filter changes each arriving within
500ms of their predecessor produce exactly one fetch, fired 500ms after the
last change; earlier pending timers are cancelled by the effect cleanup. -/
theorem debounce_three_changes (c : Company) (t1 t2 t3 : Nat)
    (hc : c.id ≠ "") (h12 : t2 < t1 + 500) (h23 : t3 < t2 + 500) :
    debouncedSearchEffect (some c) 500 [t1, t2, t3] = [t3 + 500] := by
  unfold debouncedSearchEffect
  rw [if_pos (by simp [companyGuard, hc])]
  show (if t2 < t1 + 500 then debounceFires 500 [t2, t3]
        else (t1 + 500) :: debounceFires 500 [t2, t3]) = [t3 + 500]
  rw [if_pos h12]
  show (if t3 < t2 + 500 then debounceFires 500 [t3]
        else (t2 + 500) :: debounceFires 500 [t3]) = [t3 + 500]
  rw [if_pos h23]
  rfl

/-- C3 witness: changes at 0ms, 100ms, 200ms yield one fetch at 700ms. -/
theorem debounce_three_changes_witness :
    (⟨"co1"⟩ : Company).id ≠ "" ∧ (100 : Nat) < 0 + 500 ∧ (200 : Nat) < 100 + 500 ∧
    debouncedSearchEffect (some ⟨"co1"⟩) 500 [0, 100, 200] = [700] :=
  ⟨by decide, by decide, by decide,
   debounce_three_changes ⟨"co1"⟩ 0 100 200 (by decide) (by decide) (by decide)⟩

/-- C4 counterexample: with no company selected and the component's initial
state (`loading = true`, never cleared because `loadAccounts` is guarded by
`currentCompany?.id`), the rendered output is the loading view — not the
select-a-company prompt, contradicting the claim that the prompt is the only
output whenever no company is selected. -/
theorem render_noCompany_initial_counterexample :
    render none initialViewState = RenderOutput.loadingView ∧
    RenderOutput.loadingView ≠ RenderOutput.selectCompanyPrompt ∧
    companyChangeEffectFetches none = false := by
  exact ⟨rfl, by decide, rfl⟩

/-- C4 (amended): with no company selected no fetch is ever issued (neither
the company-change effect nor the debounced search effect runs
`loadAccounts`), and the select-a-company prompt is rendered exactly when
`loading` is false and no error is set; in the initial `loading = true` state
the loading view renders instead. -/
theorem noCompany_no_fetch_and_prompt (s : ViewState) (delay : Nat)
    (changes : List Nat) (hl : s.loading = false)
    (he : jsTruthyOptStr s.error = false) :
    companyChangeEffectFetches none = false ∧
    debouncedSearchEffect none delay changes = [] ∧
    render none s = RenderOutput.selectCompanyPrompt := by
  refine ⟨rfl, rfl, ?h⟩
  simp [render, hl, he]

/-- C4 witness: a post-deselection state with `loading = false` and no error
renders the prompt, and no fetch is issued. -/
theorem noCompany_no_fetch_and_prompt_witness :
    ({ accounts := [], loading := false, error := none } : ViewState).loading = false ∧
    jsTruthyOptStr ({ accounts := [], loading := false, error := none } : ViewState).error = false ∧
    render none { accounts := [], loading := false, error := none }
      = RenderOutput.selectCompanyPrompt :=
  ⟨rfl, rfl,
   (noCompany_no_fetch_and_prompt { accounts := [], loading := false, error := none }
      500 [] rfl rfl).2.2⟩

/-- C5: `accountStats.totalAccounts` equals the length of the full loaded
accounts list, for every combination of `searchTerm`, `filterType` and
`showInactive` (the statistics are a function of `accounts` alone). -/
theorem accountStats_totalAccounts_eq_length (accounts : List Account)
    (searchTerm filterType : String) (showInactive : Bool) :
    (accountStats accounts).totalAccounts = accounts.length := rfl

/-- C6: `accountStats` is computed from the full unfiltered list —
`bankAccounts` counts accounts of type "Bank", and the three totals sum
`balance` over the accounts of type "Bank", "Fixed Asset" and
"Accounts Payable" respectively; on the spec's example list, `totalAssets` is
500 for either value of the `showInactive` toggle and `totalAccounts` is 2. -/
theorem accountStats_from_unfiltered :
    (∀ accounts : List Account,
      (accountStats accounts).bankAccounts
          = (accounts.filter fun a => a.type == "Bank").length ∧
      (accountStats accounts).totalBankBalance
          = ((accounts.filter fun a => a.type == "Bank").map
              fun a => jsBalance a.balance).sum ∧
      (accountStats accounts).totalAssets
          = ((accounts.filter fun a => a.type == "Fixed Asset").map
              fun a => jsBalance a.balance).sum ∧
      (accountStats accounts).totalLiabilities
          = ((accounts.filter fun a => a.type == "Accounts Payable").map
              fun a => jsBalance a.balance).sum) ∧
    (∀ showInactive : Bool, (accountStats exampleAccounts).totalAssets = 500) ∧
    (accountStats exampleAccounts).totalAccounts = 2 := by
  refine ⟨fun accounts => ⟨rfl, ?h1, ?h2, ?h3⟩, fun _ => by decide, rfl⟩
  all_goals
    simp only [accountStats, foldl_add_jsBalance, zero_add]

/-- C7: for a fixed account list, search term and type filter, every account
in the filtered set with `showInactive = false` is also in the filtered set
with `showInactive = true`. -/
theorem filteredAccounts_showInactive_mono (accounts : List Account)
    (searchTerm filterType : String) (a : Account)
    (h : a ∈ filteredAccounts accounts searchTerm filterType false) :
    a ∈ filteredAccounts accounts searchTerm filterType true := by
  unfold filteredAccounts at h ⊢
  rw [List.mem_filter] at h ⊢
  refine ⟨h.1, ?h2⟩
  have hp := h.2
  simp only [Bool.and_eq_true] at hp ⊢
  exact ⟨⟨hp.1.1, hp.1.2⟩, by simp [matchesActive]⟩

/-- C7 witness: an account passing the filters with `showInactive = false`
also passes with `showInactive = true`. -/
theorem filteredAccounts_showInactive_mono_witness :
    lowercaseBankAccount ∈ filteredAccounts [lowercaseBankAccount] "" "all" false ∧
    lowercaseBankAccount ∈ filteredAccounts [lowercaseBankAccount] "" "all" true :=
  ⟨by decide,
   filteredAccounts_showInactive_mono [lowercaseBankAccount] "" "all"
     lowercaseBankAccount (by decide)⟩

/-- C8: a successful fetch replaces `accounts` with the response's `data`
list, or with the empty list when that field is absent, and `loading` ends up
false on every exit path of `loadAccounts` (success or failure). -/
theorem loadAccounts_success_and_exit (s : ViewState) :
    (∀ resp : FetchResponse,
      (loadAccounts (Except.ok resp) s).accounts = resp.data.getD []) ∧
    (∀ result : Except JsError FetchResponse,
      (loadAccounts result s).loading = false) := by
  refine ⟨fun resp => rfl, fun result => ?h⟩
  cases result <;> rfl

/-- C9: an account whose `balance` is absent contributes 0 to each of the
three `accountStats` sums — prepending such an account leaves
`totalBankBalance`, `totalAssets` and `totalLiabilities` unchanged, so the
sums are well-defined integers even when balances are missing. -/
theorem accountStats_absent_balance (accounts : List Account) (a : Account)
    (h : a.balance = none) :
    (accountStats (a :: accounts)).totalBankBalance
        = (accountStats accounts).totalBankBalance ∧
    (accountStats (a :: accounts)).totalAssets
        = (accountStats accounts).totalAssets ∧
    (accountStats (a :: accounts)).totalLiabilities
        = (accountStats accounts).totalLiabilities := by
  refine ⟨?h1, ?h2, ?h3⟩
  all_goals
    simp only [accountStats]
    rw [foldl_balance_cons_none _ _ _ h]

/-- C9 witness: a Fixed Asset account with no balance leaves `totalAssets`
unchanged. -/
theorem accountStats_absent_balance_witness :
    ({ name := "Land", number := none, type := "Fixed Asset",
       balance := none, is_active := true } : Account).balance = none ∧
    (accountStats [{ name := "Land", number := none, type := "Fixed Asset",
                     balance := none, is_active := true }]).totalAssets
      = (accountStats []).totalAssets :=
  ⟨rfl,
   (accountStats_absent_balance []
     { name := "Land", number := none, type := "Fixed Asset",
       balance := none, is_active := true } rfl).2.1⟩

/-- C10: the `accountStats` type comparisons are case-sensitive while the
`filteredAccounts` type predicate is case-insensitive: an account of type
"bank" is included in the filtered list under `filterType = "bank"` yet
counted in neither `bankAccounts` nor `totalBankBalance`. -/
theorem accountStats_case_mismatch :
    filteredAccounts [lowercaseBankAccount] "" "bank" false
        = [lowercaseBankAccount] ∧
    (accountStats [lowercaseBankAccount]).bankAccounts = 0 ∧
    (accountStats [lowercaseBankAccount]).totalBankBalance = 0 := by
  exact ⟨rfl, rfl, rfl⟩

end ChartOfAccounts
